import Mathlib

/-!
Verification of the activity event router of sugarch-utilities
(`src/packages/event-handler/src/activity.ts`).

The file shallowly embeds the runtime behaviour of the TypeScript module:

* `EventMode` is the closed enumeration of subscription modes
  (`ActivityTriggerMode`).
* `modesFilters` is the constant widening table (activity.ts lines 19-24).
* `classify` is the perspective classification performed inside
  `makeChatRoomMsgHandler`'s callback (activity.ts lines 39-45); it takes the
  four runtime values the code actually compares: `sender.MemberNumber`,
  `info.SourceCharacter`, `info.TargetCharacter` and `Player.MemberNumber`.
  Actor identifiers are modelled as `Nat` (member numbers).
* A `Handler` record mirrors the `Handler` type (activity.ts lines 10-15);
  JavaScript `null` becomes `Option.none`, and function reference identity of
  the `listener` field is modelled by a `Nat` identity tag.
* Listener callbacks may re-enter the router (`on` / `once` / `onAny` /
  `onceAny` / `off`) or throw.  A callback's behaviour is modelled as a list
  of `CbAction`s indexed by the listener identity; `CbAction.act_on` covers
  all four subscribe methods (they only differ in the pushed record), and
  `CbAction.act_off` covers both branches of `off`.  The event payload
  (`sender`, `player`, `info`) is forwarded verbatim to every callback and
  never inspected by the router, so it is not represented.
* `ActivityEvents.emit` mirrors the dispatch algorithm (activity.ts lines
  63-87): copy the live registry into a snapshot, walk the snapshot threading
  the live registry through the callbacks' re-entrant mutations, build the
  next registry `nHandlers` from the snapshot, and finally overwrite the live
  registry with `nHandlers` (line 86).  The `EmitResult` additionally exposes
  the invocation sequence, the error log written by the `catch` block, and
  the value of the live registry just before the final overwrite, so that
  theorems can talk about what happened during the cycle.
-/

namespace ActivityRouter

/-- Subscription modes: the closed enumeration `ActivityTriggerMode` a
listener registers against. -/
inductive EventMode where
  | SelfOnSelf
  | OthersOnSelf
  | SelfOnOthers
  | AnyOnSelf
  | SelfInvolved
  | AnyInvolved
deriving DecidableEq, Repr

/-- Widening table entry for the `OthersOnSelf` perspective (activity.ts line 20). -/
def modesFilters.OthersOnSelf : Finset EventMode :=
  {EventMode.OthersOnSelf, EventMode.AnyOnSelf, EventMode.SelfInvolved, EventMode.AnyInvolved}

/-- Widening table entry for the `SelfOnSelf` perspective (activity.ts line 21). -/
def modesFilters.SelfOnSelf : Finset EventMode :=
  {EventMode.SelfOnSelf, EventMode.AnyOnSelf, EventMode.SelfInvolved, EventMode.AnyInvolved}

/-- Widening table entry for the `SelfOnOthers` perspective (activity.ts line 22). -/
def modesFilters.SelfOnOthers : Finset EventMode :=
  {EventMode.SelfOnOthers, EventMode.SelfInvolved, EventMode.AnyInvolved}

/-- Widening table entry for the `OthersOnOthers` perspective (activity.ts line 23). -/
def modesFilters.OthersOnOthers : Finset EventMode :=
  {EventMode.AnyInvolved}

/-- Perspective classification performed by the chat-room message handler
(activity.ts lines 39-45).  The code compares four runtime values:
`info.TargetCharacter === Player.MemberNumber`, then inside that branch
`sender.MemberNumber === info.TargetCharacter`, and in the other branch
`info.SourceCharacter === Player.MemberNumber`. -/
def classify (senderMember sourceCharacter targetCharacter playerMember : Nat) :
    Finset EventMode :=
  if targetCharacter = playerMember then
    if senderMember = targetCharacter then modesFilters.SelfOnSelf
    else modesFilters.OthersOnSelf
  else if sourceCharacter = playerMember then modesFilters.SelfOnOthers
  else modesFilters.OthersOnOthers

/-- Spec-side classifier, written from the spec's words only, for the
refinement claim C2.  Modelled from the spec: `classify(sourceId, targetId,
observerId)` maps the perspective category of the triple (section 3) to the
mode set of the widening table (section 4.1). -/
def specClassify (source target observer : Nat) : Finset EventMode :=
  if target = observer then
    if source = observer then
      {EventMode.SelfOnSelf, EventMode.AnyOnSelf, EventMode.SelfInvolved, EventMode.AnyInvolved}
    else
      {EventMode.OthersOnSelf, EventMode.AnyOnSelf, EventMode.SelfInvolved, EventMode.AnyInvolved}
  else if source = observer then
    {EventMode.SelfOnOthers, EventMode.SelfInvolved, EventMode.AnyInvolved}
  else
    {EventMode.AnyInvolved}

/-- Registry entry, mirroring the `Handler` type (activity.ts lines 10-15).
`activity = none` is the `null` activity filter; `listener` is an identity
tag standing for the JavaScript function reference. -/
structure Handler where
  mode : EventMode
  activity : Option String
  listener : Nat
  once : Bool
deriving DecidableEq, Repr

/-- Matching condition of the dispatch loop (activity.ts line 68):
`(handler.activity === null || activityName === handler.activity) &&
modeFilter.has(handler.mode)`. -/
def matchesHandler (modeFilter : Finset EventMode) (activityName : String)
    (h : Handler) : Bool :=
  (decide (h.activity = none) || decide (h.activity = some activityName))
    && decide (h.mode ∈ modeFilter)

/-- Re-entrant action a listener callback may perform on the router while it
runs.  `act_on` models any of the four subscribe methods (`on`, `once`,
`onAny`, `onceAny` — all push one record, activity.ts lines 95-125);
`act_off` models `off` with or without the listener argument (lines
134-144); `act_throw` models the callback throwing at that point. -/
inductive CbAction where
  | act_on (mode : EventMode) (activity : Option String) (listener : Nat) (once : Bool)
  | act_off (mode : EventMode) (activity : Option String) (listener : Option Nat)
  | act_throw
deriving Repr

/-- Push of one registry entry, the shared body of the four subscribe
methods (activity.ts lines 96, 106, 115, 124). -/
def pushHandler (h : Handler) (hs : List Handler) : List Handler :=
  hs ++ [h]

/-- Removal performed by `off` (activity.ts lines 134-144): without a
listener keep entries with `handler.mode !== mode || handler.activity !==
activity`; with one additionally keep entries whose listener differs. -/
def offRemove (mode : EventMode) (activity : Option String)
    (listener : Option Nat) (hs : List Handler) : List Handler :=
  match listener with
  | none =>
      hs.filter (fun h => !(decide (h.mode = mode)) || !(decide (h.activity = activity)))
  | some l =>
      hs.filter (fun h =>
        !(decide (h.mode = mode)) || !(decide (h.activity = activity))
          || !(decide (h.listener = l)))

/-- Run a callback's action list against the live registry; the second
component records whether the callback threw (execution stops at the
throw, as in JavaScript). -/
def runActions : List CbAction → List Handler → List Handler × Bool
  | [], hs => (hs, false)
  | CbAction.act_on m a l o :: rest, hs => runActions rest (pushHandler ⟨m, a, l, o⟩ hs)
  | CbAction.act_off m a l :: rest, hs => runActions rest (offRemove m a l hs)
  | CbAction.act_throw :: _, hs => (hs, true)

/-- Whether an action list ends in a throw (reached sequentially). -/
def throwsB : List CbAction → Bool
  | [] => false
  | CbAction.act_throw :: _ => true
  | _ :: rest => throwsB rest

/-- Behaviour environment: the action list the callback with a given
listener identity performs when invoked. -/
def Beh : Type := Nat → List CbAction

/-- State threaded through the dispatch loop of `emit`: the live registry
`this._handlers` (mutated by re-entrant callbacks), the next registry
`nHandlers` under construction, and — for observation — the invocation
sequence and the error log written by the `catch` block. -/
structure LoopState where
  live : List Handler
  nHandlers : List Handler
  invoked : List Handler
  logged : List (Option String × EventMode)
deriving Repr

/-- Result of one `emit` call: `handlers` is the registry after the final
`this._handlers = nHandlers` swap (activity.ts line 86), `invoked` the
matched snapshot entries in invocation order, `logged` the error-log lines
`(handler.activity, handler.mode)` of line 74, and `liveBeforeSwap` the
value of `this._handlers` immediately before line 86. -/
structure EmitResult where
  handlers : List Handler
  invoked : List Handler
  logged : List (Option String × EventMode)
  liveBeforeSwap : List Handler
deriving Repr

namespace ActivityEvents

/-- Dispatch loop of `emit` (activity.ts lines 67-83), walking the snapshot
`cpListeners` left to right. -/
def emitLoop (beh : Nat → List CbAction) (modeFilter : Finset EventMode)
    (activityName : String) : List Handler → LoopState → LoopState
  | [], s => s
  | h :: rest, s =>
    if matchesHandler modeFilter activityName h then
      let r := runActions (beh h.listener) s.live
      emitLoop beh modeFilter activityName rest
        { live := r.1
          nHandlers := if h.once then s.nHandlers else s.nHandlers ++ [h]
          invoked := s.invoked ++ [h]
          logged := if r.2 then s.logged ++ [(h.activity, h.mode)] else s.logged }
    else
      emitLoop beh modeFilter activityName rest
        { s with nHandlers := s.nHandlers ++ [h] }

/-- The `emit` method (activity.ts lines 63-87): snapshot the registry,
walk it building `nHandlers`, then replace the registry with `nHandlers` —
discarding whatever the callbacks did to the live registry meanwhile. -/
def emit (beh : Nat → List CbAction) (modeFilter : Finset EventMode)
    (activityName : String) (handlers : List Handler) : EmitResult :=
  let s := emitLoop beh modeFilter activityName handlers
    { live := handlers, nHandlers := [], invoked := [], logged := [] }
  { handlers := s.nHandlers
    invoked := s.invoked
    logged := s.logged
    liveBeforeSwap := s.live }

/-- The `on` method (activity.ts lines 95-97). -/
def on' (mode : EventMode) (activity : String) (listener : Nat)
    (hs : List Handler) : List Handler :=
  pushHandler ⟨mode, some activity, listener, false⟩ hs

/-- The `once` method (activity.ts lines 105-107). -/
def once (mode : EventMode) (activity : String) (listener : Nat)
    (hs : List Handler) : List Handler :=
  pushHandler ⟨mode, some activity, listener, true⟩ hs

/-- The `onAny` method (activity.ts lines 114-116). -/
def onAny (mode : EventMode) (listener : Nat) (hs : List Handler) : List Handler :=
  pushHandler ⟨mode, none, listener, false⟩ hs

/-- The `onceAny` method (activity.ts lines 123-125). -/
def onceAny (mode : EventMode) (listener : Nat) (hs : List Handler) : List Handler :=
  pushHandler ⟨mode, none, listener, true⟩ hs

/-- The `off` method (activity.ts lines 134-144). -/
def off (mode : EventMode) (activity : Option String) (listener : Option Nat)
    (hs : List Handler) : List Handler :=
  offRemove mode activity listener hs

end ActivityEvents

/-- A sequence of emit calls (mode set and activity name per call) applied
one after the other; returns the final registry and the concatenated
invocation sequence. -/
def emitSeq (beh : Nat → List CbAction) :
    List (Finset EventMode × String) → List Handler → List Handler × List Handler
  | [], hs => (hs, [])
  | e :: rest, hs =>
    let r := ActivityEvents.emit beh e.1 e.2 hs
    let t := emitSeq beh rest r.handlers
    (t.1, r.invoked ++ t.2)

/-- One external registry operation, for stating order invariants over
arbitrary operation sequences. -/
inductive RegOp where
  | op_on (mode : EventMode) (activity : String) (listener : Nat)
  | op_once (mode : EventMode) (activity : String) (listener : Nat)
  | op_onAny (mode : EventMode) (listener : Nat)
  | op_onceAny (mode : EventMode) (listener : Nat)
  | op_off (mode : EventMode) (activity : Option String) (listener : Option Nat)
  | op_emit (modeFilter : Finset EventMode) (activityName : String)

/-- Apply one registry operation. -/
def applyOp (beh : Nat → List CbAction) : RegOp → List Handler → List Handler
  | RegOp.op_on m a l, hs => ActivityEvents.on' m a l hs
  | RegOp.op_once m a l, hs => ActivityEvents.once m a l hs
  | RegOp.op_onAny m l, hs => ActivityEvents.onAny m l hs
  | RegOp.op_onceAny m l, hs => ActivityEvents.onceAny m l hs
  | RegOp.op_off m a l, hs => ActivityEvents.off m a l hs
  | RegOp.op_emit mf an, hs => (ActivityEvents.emit beh mf an hs).handlers

/-- Apply a sequence of registry operations, oldest first. -/
def applyOps (beh : Nat → List CbAction) (ops : List RegOp)
    (hs : List Handler) : List Handler :=
  ops.foldl (fun s o => applyOp beh o s) hs

/-- Runtime-level registry entry: TypeScript types are erased at runtime, so
the `mode` field of a pushed record is just whatever string the caller
supplied. -/
structure RawHandler where
  mode : String
  activity : Option String
  listener : Nat
  once : Bool
deriving DecidableEq, Repr

/-- The six enumerated subscription-mode strings of `ActivityTriggerMode`. -/
def validModes : List String :=
  ["SelfOnSelf", "OthersOnSelf", "SelfOnOthers", "AnyOnSelf", "SelfInvolved", "AnyInvolved"]

/-- Runtime behaviour of `on` (activity.ts line 96): the method body is a
bare `this._handlers.push({ mode, activity, listener, once: false })` with
no validation of `mode`; the `EventMode` constraint exists only in the
static type system and is erased at runtime. -/
def onRaw (mode : String) (activity : String) (listener : Nat)
    (hs : List RawHandler) : List RawHandler :=
  hs ++ [⟨mode, some activity, listener, false⟩]

end ActivityRouter

/-! ## Helper lemmas characterising the dispatch loop -/

namespace ActivityRouter

/-- Whether a callback throws depends only on its action list. -/
theorem runActions_snd (as : List CbAction) (hs : List Handler) :
    (runActions as hs).2 = throwsB as := by
  induction as generalizing hs with
  | nil => rfl
  | cons a rest ih => cases a <;> simp [runActions, throwsB, ih]

/-- The invocation sequence accumulated by the dispatch loop is the matched
part of the remaining snapshot, in order, independent of the callbacks'
re-entrant actions. -/
theorem emitLoop_invoked (beh : Nat → List CbAction) (mf : Finset EventMode)
    (an : String) (l : List Handler) (s : LoopState) :
    (ActivityEvents.emitLoop beh mf an l s).invoked
      = s.invoked ++ l.filter (matchesHandler mf an) := by
  induction l generalizing s with
  | nil => simp [ActivityEvents.emitLoop]
  | cons h t ih =>
    by_cases hm : matchesHandler mf an h = true
    · simp [ActivityEvents.emitLoop, hm, ih, List.filter_cons]
    · simp [ActivityEvents.emitLoop, hm, ih, List.filter_cons]

/-- The next registry accumulated by the dispatch loop keeps exactly the
snapshot entries that are not a matched `once` entry, in order, independent
of the callbacks' re-entrant actions. -/
theorem emitLoop_nHandlers (beh : Nat → List CbAction) (mf : Finset EventMode)
    (an : String) (l : List Handler) (s : LoopState) :
    (ActivityEvents.emitLoop beh mf an l s).nHandlers
      = s.nHandlers ++ l.filter (fun h => !(matchesHandler mf an h && h.once)) := by
  induction l generalizing s with
  | nil => simp [ActivityEvents.emitLoop]
  | cons h t ih =>
    by_cases hm : matchesHandler mf an h = true
    · by_cases ho : h.once = true
      · simp [ActivityEvents.emitLoop, hm, ho, ih, List.filter_cons]
      · simp [ActivityEvents.emitLoop, hm, ho, ih, List.filter_cons]
    · simp [ActivityEvents.emitLoop, hm, ih, List.filter_cons]

/-- The error log accumulated by the dispatch loop records, in order, the
`(activity, mode)` of each matched entry whose callback threw. -/
theorem emitLoop_logged (beh : Nat → List CbAction) (mf : Finset EventMode)
    (an : String) (l : List Handler) (s : LoopState) :
    (ActivityEvents.emitLoop beh mf an l s).logged
      = s.logged ++ (l.filter (matchesHandler mf an)).filterMap
          (fun h => if throwsB (beh h.listener) then some (h.activity, h.mode) else none) := by
  induction l generalizing s with
  | nil => simp [ActivityEvents.emitLoop]
  | cons h t ih =>
    by_cases hm : matchesHandler mf an h = true
    · by_cases ht : throwsB (beh h.listener) = true
      · simp [ActivityEvents.emitLoop, hm, ht, runActions_snd, ih, List.filter_cons,
          List.filterMap_cons]
      · simp [ActivityEvents.emitLoop, hm, ht, runActions_snd, ih, List.filter_cons,
          List.filterMap_cons]
    · simp [ActivityEvents.emitLoop, hm, ih, List.filter_cons]

/-- After one `emit`, the invocation sequence is exactly the matched part of
the starting registry (the snapshot), in registration order. -/
theorem emit_invoked (beh : Nat → List CbAction) (mf : Finset EventMode)
    (an : String) (hs : List Handler) :
    (ActivityEvents.emit beh mf an hs).invoked = hs.filter (matchesHandler mf an) := by
  simp [ActivityEvents.emit, emitLoop_invoked]

/-- After one `emit`, the registry is the snapshot with the matched `once`
entries deleted, whatever the callbacks did. -/
theorem emit_handlers (beh : Nat → List CbAction) (mf : Finset EventMode)
    (an : String) (hs : List Handler) :
    (ActivityEvents.emit beh mf an hs).handlers
      = hs.filter (fun h => !(matchesHandler mf an h && h.once)) := by
  simp [ActivityEvents.emit, emitLoop_nHandlers]

/-- After one `emit`, the error log lists the `(activity, mode)` of each
matched entry whose callback threw, in invocation order. -/
theorem emit_logged (beh : Nat → List CbAction) (mf : Finset EventMode)
    (an : String) (hs : List Handler) :
    (ActivityEvents.emit beh mf an hs).logged
      = (hs.filter (matchesHandler mf an)).filterMap
          (fun h => if throwsB (beh h.listener) then some (h.activity, h.mode) else none) := by
  simp [ActivityEvents.emit, emitLoop_logged]

/-- Multiplicity of an element in a Boolean filtering. -/
theorem count_filter_bool {α : Type} [DecidableEq α] (p : α → Bool) (a : α)
    (l : List α) :
    List.count a (l.filter p) = if p a then List.count a l else 0 := by
  induction l with
  | nil => simp
  | cons x t ih =>
    by_cases hx : p x = true
    · by_cases hax : a = x
      · subst hax; simp [List.filter_cons, hx, ih]
      · simp [List.filter_cons, hx, List.count_cons_of_ne hax, ih]
    · by_cases hax : a = x
      · subst hax; simp [List.filter_cons, hx, ih]
      · simp [List.filter_cons, hx, List.count_cons_of_ne hax, ih]

/-- Across any sequence of emit calls, a `once` entry is invoked at most as
many times as it occurs in the starting registry. -/
theorem emitSeq_count_once (beh : Nat → List CbAction) (h : Handler)
    (ho : h.once = true) :
    ∀ (events : List (Finset EventMode × String)) (st : List Handler),
      List.count h (emitSeq beh events st).2 ≤ List.count h st := by
  intro events
  induction events with
  | nil => intro st; simp [emitSeq]
  | cons e rest ih =>
    intro st
    simp only [emitSeq, List.count_append, emit_invoked, emit_handlers, count_filter_bool]
    have hrest := ih (st.filter fun x => !(matchesHandler e.1 e.2 x && x.once))
    rw [count_filter_bool] at hrest
    by_cases hm : matchesHandler e.1 e.2 h = true
    · simp only [hm, ho, Bool.and_self, Bool.not_true, Bool.false_eq_true, if_false,
        if_true] at hrest ⊢
      omega
    · simp only [hm, ho, Bool.false_and, Bool.not_false, if_true, Bool.false_eq_true,
        if_false] at hrest ⊢
      omega

end ActivityRouter

/-! ## Claim theorems -/

namespace ActivityRouter

/-- C1: after any dispatch cycle, every registered `once` entry whose mode
is in the dispatched mode set and whose activity filter matches the
dispatched activity is absent from the registry; every entry that did not
match, or matched with `once = false`, keeps its multiplicity (in
particular an entry present exactly once remains present exactly once);
consequently a `once` entry registered once is invoked at most one time
across any sequence of dispatch cycles. -/
theorem claim_C1 (beh : Nat → List CbAction) (mf : Finset EventMode)
    (an : String) (st : List Handler) (h : Handler) :
    (matchesHandler mf an h = true → h.once = true →
      h ∉ (ActivityEvents.emit beh mf an st).handlers)
    ∧ (¬(matchesHandler mf an h = true ∧ h.once = true) →
      List.count h (ActivityEvents.emit beh mf an st).handlers = List.count h st)
    ∧ (h.once = true → List.count h st ≤ 1 →
      ∀ events : List (Finset EventMode × String),
        List.count h (emitSeq beh events st).2 ≤ 1) := by
  refine ⟨?_, ?_, ?_⟩
  · intro hm ho hmem
    rw [emit_handlers] at hmem
    have hp := List.of_mem_filter hmem
    simp [hm, ho] at hp
  · intro hn
    rw [emit_handlers, count_filter_bool]
    by_cases hm : matchesHandler mf an h = true
    · by_cases ho : h.once = true
      · exact absurd ⟨hm, ho⟩ hn
      · simp [hm, ho]
    · simp [hm]
  · intro ho hc events
    exact le_trans (emitSeq_count_once beh h ho events st) hc

/-- Witness for C1: a matched `once` entry disappears, an unmatched entry
keeps its multiplicity, and across two matching cycles the `once` entry is
invoked at most once. -/
theorem claim_C1_witness :
    ((⟨EventMode.SelfOnSelf, some "Kiss", 5, true⟩ : Handler) ∉
      (ActivityEvents.emit (fun _ => []) {EventMode.SelfOnSelf} "Kiss"
        [⟨EventMode.SelfOnSelf, some "Kiss", 5, true⟩]).handlers)
    ∧ (List.count (⟨EventMode.SelfOnSelf, some "Kiss", 5, false⟩ : Handler)
        (ActivityEvents.emit (fun _ => []) {EventMode.SelfOnSelf} "Slap"
          [⟨EventMode.SelfOnSelf, some "Kiss", 5, false⟩]).handlers
      = List.count (⟨EventMode.SelfOnSelf, some "Kiss", 5, false⟩ : Handler)
          [⟨EventMode.SelfOnSelf, some "Kiss", 5, false⟩])
    ∧ (List.count (⟨EventMode.SelfOnSelf, some "Kiss", 5, true⟩ : Handler)
        (emitSeq (fun _ => [])
          [({EventMode.SelfOnSelf}, "Kiss"), ({EventMode.SelfOnSelf}, "Kiss")]
          [⟨EventMode.SelfOnSelf, some "Kiss", 5, true⟩]).2 ≤ 1) :=
  ⟨(claim_C1 (fun _ => []) {EventMode.SelfOnSelf} "Kiss"
      [⟨EventMode.SelfOnSelf, some "Kiss", 5, true⟩]
      ⟨EventMode.SelfOnSelf, some "Kiss", 5, true⟩).1 (by decide) rfl,
   (claim_C1 (fun _ => []) {EventMode.SelfOnSelf} "Slap"
      [⟨EventMode.SelfOnSelf, some "Kiss", 5, false⟩]
      ⟨EventMode.SelfOnSelf, some "Kiss", 5, false⟩).2.1 (by decide),
   (claim_C1 (fun _ => []) {EventMode.SelfOnSelf} "Kiss"
      [⟨EventMode.SelfOnSelf, some "Kiss", 5, true⟩]
      ⟨EventMode.SelfOnSelf, some "Kiss", 5, true⟩).2.2 rfl (by decide)
      [({EventMode.SelfOnSelf}, "Kiss"), ({EventMode.SelfOnSelf}, "Kiss")]⟩

/-- C2: on every perspective triple (source, target, observer) — an event
whose transport sender and parsed source field agree — the classifier
produces exactly the mode set of the spec's widening table. -/
theorem claim_C2 (source target observer : Nat) :
    classify source source target observer = specClassify source target observer := by
  unfold classify specClassify
  by_cases h1 : target = observer
  · subst h1
    by_cases h2 : source = target <;>
      simp [h2, modesFilters.SelfOnSelf, modesFilters.OthersOnSelf]
  · by_cases h2 : source = observer <;>
      simp [h1, h2, modesFilters.SelfOnOthers, modesFilters.OthersOnOthers]

/-- C3: during a dispatch with mode set `mf` and activity `an`, a snapshot
entry is invoked iff `mf` contains its mode and its activity filter is null
or equals `an`; an entry with a null filter fires on every dispatch whose
mode set contains its mode, whatever the activity. -/
theorem claim_C3 (beh : Nat → List CbAction) (mf : Finset EventMode)
    (an : String) (st : List Handler) (h : Handler) :
    (h ∈ (ActivityEvents.emit beh mf an st).invoked ↔
      h ∈ st ∧ matchesHandler mf an h = true)
    ∧ (h.activity = none → h ∈ st → h.mode ∈ mf →
        h ∈ (ActivityEvents.emit beh mf an st).invoked) := by
  constructor
  · rw [emit_invoked]; exact List.mem_filter
  · intro ha hmem hmode
    rw [emit_invoked, List.mem_filter]
    exact ⟨hmem, by simp [matchesHandler, ha, hmode]⟩

/-- Witness for C3: a null-filter listener on `AnyInvolved` fires on a
dispatch with activity "Kiss". -/
theorem claim_C3_witness :
    (⟨EventMode.AnyInvolved, none, 0, false⟩ : Handler) ∈
      (ActivityEvents.emit (fun _ => []) {EventMode.AnyInvolved} "Kiss"
        [⟨EventMode.AnyInvolved, none, 0, false⟩]).invoked :=
  (claim_C3 (fun _ => []) {EventMode.AnyInvolved} "Kiss"
      [⟨EventMode.AnyInvolved, none, 0, false⟩]
      ⟨EventMode.AnyInvolved, none, 0, false⟩).2 rfl (by decide) (by decide)

/-- C4: whatever the callbacks do — including throwing — dispatch invokes
exactly the matched snapshot entries in registration order, logs an error
line `(activity, mode)` for each matched entry that threw, rebuilds the
registry normally, and returns; in particular every matched entry whose
callback threw has its activity filter and mode on the log. -/
theorem claim_C4 (beh : Nat → List CbAction) (mf : Finset EventMode)
    (an : String) (st : List Handler) :
    ((ActivityEvents.emit beh mf an st).invoked = st.filter (matchesHandler mf an))
    ∧ ((ActivityEvents.emit beh mf an st).logged
        = (st.filter (matchesHandler mf an)).filterMap
            (fun h => if throwsB (beh h.listener) then some (h.activity, h.mode) else none))
    ∧ ((ActivityEvents.emit beh mf an st).handlers
        = st.filter (fun h => !(matchesHandler mf an h && h.once)))
    ∧ (∀ h : Handler, h ∈ st → matchesHandler mf an h = true →
        throwsB (beh h.listener) = true →
        (h.activity, h.mode) ∈ (ActivityEvents.emit beh mf an st).logged) := by
  refine ⟨emit_invoked beh mf an st, emit_logged beh mf an st,
    emit_handlers beh mf an st, ?_⟩
  intro h hmem hm ht
  rw [emit_logged, List.mem_filterMap]
  exact ⟨h, List.mem_filter.mpr ⟨hmem, hm⟩, by simp [ht]⟩

/-- Witness for C4: listener 0 throws; its `(activity, mode)` is logged and
the later-registered listener 1 is still invoked. -/
theorem claim_C4_witness :
    ((none, EventMode.AnyInvolved) ∈
      (ActivityEvents.emit (fun n => if n = 0 then [CbAction.act_throw] else [])
        {EventMode.AnyInvolved} "Kiss"
        [⟨EventMode.AnyInvolved, none, 0, false⟩,
         ⟨EventMode.AnyInvolved, none, 1, false⟩]).logged)
    ∧ ((ActivityEvents.emit (fun n => if n = 0 then [CbAction.act_throw] else [])
        {EventMode.AnyInvolved} "Kiss"
        [⟨EventMode.AnyInvolved, none, 0, false⟩,
         ⟨EventMode.AnyInvolved, none, 1, false⟩]).invoked
      = [⟨EventMode.AnyInvolved, none, 0, false⟩,
         ⟨EventMode.AnyInvolved, none, 1, false⟩]) :=
  ⟨(claim_C4 (fun n => if n = 0 then [CbAction.act_throw] else [])
      {EventMode.AnyInvolved} "Kiss"
      [⟨EventMode.AnyInvolved, none, 0, false⟩,
       ⟨EventMode.AnyInvolved, none, 1, false⟩]).2.2.2
      ⟨EventMode.AnyInvolved, none, 0, false⟩ (by decide) (by decide) (by decide),
   by decide⟩

end ActivityRouter

namespace ActivityRouter

/-- C5 counterexample: listener 0 calls `off` against the non-`once`
listener 1 during the cycle.  The removal is applied to the live registry
(listener 1 is gone from it just before the swap), but the end-of-cycle
`this._handlers = nHandlers` overwrites the live registry with the rebuild
from the snapshot, so listener 1 is still registered after the cycle and is
invoked again in the next dispatch cycle — refuting the claim that the
unsubscribe takes effect after the cycle. -/
theorem claim_C5_counterexample :
    ((⟨EventMode.AnyInvolved, none, 1, false⟩ : Handler) ∉
      (ActivityEvents.emit
        (fun n => if n = 0 then [CbAction.act_off EventMode.AnyInvolved none (some 1)] else [])
        {EventMode.AnyInvolved} "Kiss"
        [⟨EventMode.AnyInvolved, none, 0, false⟩,
         ⟨EventMode.AnyInvolved, none, 1, false⟩]).liveBeforeSwap)
    ∧ ((⟨EventMode.AnyInvolved, none, 1, false⟩ : Handler) ∈
      (ActivityEvents.emit
        (fun n => if n = 0 then [CbAction.act_off EventMode.AnyInvolved none (some 1)] else [])
        {EventMode.AnyInvolved} "Kiss"
        [⟨EventMode.AnyInvolved, none, 0, false⟩,
         ⟨EventMode.AnyInvolved, none, 1, false⟩]).handlers)
    ∧ ((⟨EventMode.AnyInvolved, none, 1, false⟩ : Handler) ∈
      (ActivityEvents.emit
        (fun n => if n = 0 then [CbAction.act_off EventMode.AnyInvolved none (some 1)] else [])
        {EventMode.AnyInvolved} "Kiss"
        ((ActivityEvents.emit
          (fun n => if n = 0 then [CbAction.act_off EventMode.AnyInvolved none (some 1)] else [])
          {EventMode.AnyInvolved} "Kiss"
          [⟨EventMode.AnyInvolved, none, 0, false⟩,
           ⟨EventMode.AnyInvolved, none, 1, false⟩]).handlers)).invoked) := by
  decide

/-- C5 amended: an `off` issued from inside a listener callback does not
make any listener fire twice in that cycle, and a not-yet-visited snapshot
entry targeted by the removal still fires in the current cycle; however the
removal does not survive the cycle: the end-of-cycle swap replaces the
registry with the rebuild from the snapshot, so a matched non-`once` entry
targeted by the removal remains registered and fires again in the next
matching dispatch cycle. -/
theorem claim_C5_amended (beh : Nat → List CbAction) (mf : Finset EventMode)
    (an : String) (st : List Handler) (h : Handler) :
    (List.count h (ActivityEvents.emit beh mf an st).invoked ≤ List.count h st)
    ∧ (h ∈ st → matchesHandler mf an h = true →
        h ∈ (ActivityEvents.emit beh mf an st).invoked)
    ∧ ((ActivityEvents.emit beh mf an st).handlers
        = st.filter (fun x => !(matchesHandler mf an x && x.once)))
    ∧ (h ∈ st → matchesHandler mf an h = true → h.once = false →
        h ∈ (ActivityEvents.emit beh mf an
              (ActivityEvents.emit beh mf an st).handlers).invoked) := by
  refine ⟨?_, ?_, emit_handlers beh mf an st, ?_⟩
  · rw [emit_invoked, count_filter_bool]
    by_cases hm : matchesHandler mf an h = true <;> simp [hm]
  · intro hmem hm
    rw [emit_invoked]
    exact List.mem_filter.mpr ⟨hmem, hm⟩
  · intro hmem hm ho
    rw [emit_invoked, emit_handlers]
    refine List.mem_filter.mpr ⟨List.mem_filter.mpr ⟨hmem, ?_⟩, hm⟩
    simp [hm, ho]

/-- Witness for C5 amended, with listener 0 unsubscribing listener 1
mid-cycle: listener 1 fires in the current cycle and again in the next. -/
theorem claim_C5_amended_witness :
    ((⟨EventMode.AnyInvolved, none, 1, false⟩ : Handler) ∈
      (ActivityEvents.emit
        (fun n => if n = 0 then [CbAction.act_off EventMode.AnyInvolved none (some 1)] else [])
        {EventMode.AnyInvolved} "Kiss"
        [⟨EventMode.AnyInvolved, none, 0, false⟩,
         ⟨EventMode.AnyInvolved, none, 1, false⟩]).invoked)
    ∧ ((⟨EventMode.AnyInvolved, none, 1, false⟩ : Handler) ∈
      (ActivityEvents.emit
        (fun n => if n = 0 then [CbAction.act_off EventMode.AnyInvolved none (some 1)] else [])
        {EventMode.AnyInvolved} "Kiss"
        ((ActivityEvents.emit
          (fun n => if n = 0 then [CbAction.act_off EventMode.AnyInvolved none (some 1)] else [])
          {EventMode.AnyInvolved} "Kiss"
          [⟨EventMode.AnyInvolved, none, 0, false⟩,
           ⟨EventMode.AnyInvolved, none, 1, false⟩]).handlers)).invoked) :=
  ⟨(claim_C5_amended
      (fun n => if n = 0 then [CbAction.act_off EventMode.AnyInvolved none (some 1)] else [])
      {EventMode.AnyInvolved} "Kiss"
      [⟨EventMode.AnyInvolved, none, 0, false⟩, ⟨EventMode.AnyInvolved, none, 1, false⟩]
      ⟨EventMode.AnyInvolved, none, 1, false⟩).2.1 (by decide) (by decide),
   (claim_C5_amended
      (fun n => if n = 0 then [CbAction.act_off EventMode.AnyInvolved none (some 1)] else [])
      {EventMode.AnyInvolved} "Kiss"
      [⟨EventMode.AnyInvolved, none, 0, false⟩, ⟨EventMode.AnyInvolved, none, 1, false⟩]
      ⟨EventMode.AnyInvolved, none, 1, false⟩).2.2.2 (by decide) (by decide) rfl⟩

/-- C6 counterexample: listener 0 subscribes a new listener 2 during the
cycle.  The new entry is appended to the live registry (it is there just
before the swap), but the end-of-cycle `this._handlers = nHandlers`
replaces the registry with the rebuild from the snapshot, so the new entry
is NOT present after the cycle — refuting the claim that it becomes
visible to the next dispatch cycle. -/
theorem claim_C6_counterexample :
    ((⟨EventMode.AnyInvolved, none, 2, false⟩ : Handler) ∈
      (ActivityEvents.emit
        (fun n => if n = 0 then [CbAction.act_on EventMode.AnyInvolved none 2 false] else [])
        {EventMode.AnyInvolved} "Kiss"
        [⟨EventMode.AnyInvolved, none, 0, false⟩]).liveBeforeSwap)
    ∧ ((⟨EventMode.AnyInvolved, none, 2, false⟩ : Handler) ∉
      (ActivityEvents.emit
        (fun n => if n = 0 then [CbAction.act_on EventMode.AnyInvolved none 2 false] else [])
        {EventMode.AnyInvolved} "Kiss"
        [⟨EventMode.AnyInvolved, none, 0, false⟩]).handlers) := by
  decide

/-- C6 amended: an entry subscribed from inside a listener callback during
a dispatch cycle never receives the event being dispatched in that cycle;
but it is not present in the registry after the cycle either — the
end-of-cycle swap discards the mid-dispatch append, so the new entry is
invisible to subsequent cycles as well. -/
theorem claim_C6_amended (beh : Nat → List CbAction) (mf : Finset EventMode)
    (an : String) (st : List Handler) (e : Handler) (he : e ∉ st) :
    e ∉ (ActivityEvents.emit beh mf an st).invoked
    ∧ e ∉ (ActivityEvents.emit beh mf an st).handlers := by
  rw [emit_invoked, emit_handlers]
  exact ⟨fun hmem => he (List.mem_of_mem_filter hmem),
         fun hmem => he (List.mem_of_mem_filter hmem)⟩

/-- Witness for C6 amended at the counterexample input: the entry listener
0 subscribes mid-cycle is neither invoked in that cycle nor registered
after it. -/
theorem claim_C6_amended_witness :
    ((⟨EventMode.AnyInvolved, none, 2, false⟩ : Handler) ∉
      (ActivityEvents.emit
        (fun n => if n = 0 then [CbAction.act_on EventMode.AnyInvolved none 2 false] else [])
        {EventMode.AnyInvolved} "Kiss"
        [⟨EventMode.AnyInvolved, none, 0, false⟩]).invoked)
    ∧ ((⟨EventMode.AnyInvolved, none, 2, false⟩ : Handler) ∉
      (ActivityEvents.emit
        (fun n => if n = 0 then [CbAction.act_on EventMode.AnyInvolved none 2 false] else [])
        {EventMode.AnyInvolved} "Kiss"
        [⟨EventMode.AnyInvolved, none, 0, false⟩]).handlers) :=
  claim_C6_amended
    (fun n => if n = 0 then [CbAction.act_on EventMode.AnyInvolved none 2 false] else [])
    {EventMode.AnyInvolved} "Kiss"
    [⟨EventMode.AnyInvolved, none, 0, false⟩]
    ⟨EventMode.AnyInvolved, none, 2, false⟩ (by decide)

/-- C7: subscribing the same (mode, activity, callback, once=false)
combination twice yields two independent registry entries, and a matching
dispatch invokes both of them, after all earlier matching entries, in
registration order. -/
theorem claim_C7 (beh : Nat → List CbAction) (mf : Finset EventMode)
    (an : String) (st : List Handler) (m : EventMode) (a : String) (l : Nat)
    (hm : matchesHandler mf an ⟨m, some a, l, false⟩ = true) :
    (ActivityEvents.on' m a l (ActivityEvents.on' m a l st)
      = st ++ [⟨m, some a, l, false⟩, ⟨m, some a, l, false⟩])
    ∧ ((ActivityEvents.emit beh mf an
          (ActivityEvents.on' m a l (ActivityEvents.on' m a l st))).invoked
      = st.filter (matchesHandler mf an)
          ++ [⟨m, some a, l, false⟩, ⟨m, some a, l, false⟩]) := by
  constructor
  · simp [ActivityEvents.on', pushHandler]
  · rw [emit_invoked]
    simp [ActivityEvents.on', pushHandler, List.filter_append, hm]

/-- Witness for C7: registering the same `SelfInvolved`/"Hug" listener
twice makes it fire twice on a matching dispatch. -/
theorem claim_C7_witness :
    (ActivityEvents.on' EventMode.SelfInvolved "Hug" 4
        (ActivityEvents.on' EventMode.SelfInvolved "Hug" 4 [])
      = [⟨EventMode.SelfInvolved, some "Hug", 4, false⟩,
         ⟨EventMode.SelfInvolved, some "Hug", 4, false⟩])
    ∧ ((ActivityEvents.emit (fun _ => []) {EventMode.SelfInvolved} "Hug"
          (ActivityEvents.on' EventMode.SelfInvolved "Hug" 4
            (ActivityEvents.on' EventMode.SelfInvolved "Hug" 4 []))).invoked
      = [⟨EventMode.SelfInvolved, some "Hug", 4, false⟩,
         ⟨EventMode.SelfInvolved, some "Hug", 4, false⟩]) :=
  claim_C7 (fun _ => []) {EventMode.SelfInvolved} "Hug" [] EventMode.SelfInvolved
    "Hug" 4 (by decide)

/-- C8 counterexample: "Bogus" is outside the six enumerated mode strings,
yet the runtime `on` accepts it — the pushed entry is in the registry, no
rejection happens at subscribe time. -/
theorem claim_C8_counterexample :
    ("Bogus" ∉ validModes)
    ∧ ((⟨"Bogus", some "Kiss", 0, false⟩ : RawHandler) ∈ onRaw "Bogus" "Kiss" 0 []) := by
  constructor
  · decide
  · simp [onRaw]

/-- C8 amended: subscribe performs no runtime validation of the mode
value; a mode outside the six enumerated subscription modes is silently
accepted into the registry (the enumeration is enforced only statically by
the TypeScript type system, which is erased at runtime). -/
theorem claim_C8_amended (mode activity : String) (listener : Nat)
    (hs : List RawHandler) (_hmode : mode ∉ validModes) :
    onRaw mode activity listener hs = hs ++ [⟨mode, some activity, listener, false⟩]
    ∧ (⟨mode, some activity, listener, false⟩ : RawHandler) ∈
        onRaw mode activity listener hs := by
  refine ⟨rfl, ?_⟩
  simp [onRaw]

/-- Witness for C8 amended at the invalid mode "Bogus". -/
theorem claim_C8_amended_witness :
    onRaw "Bogus" "Kiss" 0 [] = [⟨"Bogus", some "Kiss", 0, false⟩]
    ∧ (⟨"Bogus", some "Kiss", 0, false⟩ : RawHandler) ∈ onRaw "Bogus" "Kiss" 0 [] :=
  claim_C8_amended "Bogus" "Kiss" 0 [] (by decide)

end ActivityRouter

namespace ActivityRouter

/-- Every single registry operation maps the registry to an order-preserving
filtering of itself followed by the newly appended entries. -/
theorem applyOp_shape (beh : Nat → List CbAction) (o : RegOp) (st : List Handler) :
    ∃ (p : Handler → Bool) (suffix : List Handler),
      applyOp beh o st = st.filter p ++ suffix := by
  cases o with
  | op_on m a l =>
    exact ⟨fun _ => true, [⟨m, some a, l, false⟩],
      by simp [applyOp, ActivityEvents.on', pushHandler]⟩
  | op_once m a l =>
    exact ⟨fun _ => true, [⟨m, some a, l, true⟩],
      by simp [applyOp, ActivityEvents.once, pushHandler]⟩
  | op_onAny m l =>
    exact ⟨fun _ => true, [⟨m, none, l, false⟩],
      by simp [applyOp, ActivityEvents.onAny, pushHandler]⟩
  | op_onceAny m l =>
    exact ⟨fun _ => true, [⟨m, none, l, true⟩],
      by simp [applyOp, ActivityEvents.onceAny, pushHandler]⟩
  | op_off m a l =>
    cases l with
    | none =>
      exact ⟨fun h => !(decide (h.mode = m)) || !(decide (h.activity = a)), [],
        by simp [applyOp, ActivityEvents.off, offRemove]⟩
    | some x =>
      exact ⟨fun h => !(decide (h.mode = m)) || !(decide (h.activity = a))
          || !(decide (h.listener = x)), [],
        by simp [applyOp, ActivityEvents.off, offRemove]⟩
  | op_emit mf an =>
    exact ⟨fun h => !(matchesHandler mf an h && h.once), [],
      by simp [applyOp, emit_handlers]⟩

/-- Iterating `applyOp_shape`: any sequence of subscribe, unsubscribe and
dispatch operations leaves the surviving original entries in their relative
registration order, followed by later-appended entries. -/
theorem applyOps_shape (beh : Nat → List CbAction) (ops : List RegOp) :
    ∀ st : List Handler, ∃ (p : Handler → Bool) (suffix : List Handler),
      applyOps beh ops st = st.filter p ++ suffix := by
  induction ops with
  | nil => exact fun st => ⟨fun _ => true, [], by simp [applyOps]⟩
  | cons o rest ih =>
    intro st
    obtain ⟨q, app, hq⟩ := applyOp_shape beh o st
    obtain ⟨p, suffix, hp⟩ := ih (applyOp beh o st)
    refine ⟨fun h => p h && q h, app.filter p ++ suffix, ?_⟩
    have hstep : applyOps beh (o :: rest) st = applyOps beh rest (applyOp beh o st) := rfl
    rw [hstep, hp, hq, List.filter_append, List.filter_filter, List.append_assoc]

/-- C9: dispatch preserves the relative registration order of all surviving
entries — the rebuilt registry is exactly the snapshot with the matched
`once` entries deleted, with no reordering — and across any sequence of
subscribe, unsubscribe and dispatch operations the surviving entries of the
starting registry keep their relative order (the registry is always an
order-preserving filtering of the starting registry followed by entries
registered later). -/
theorem claim_C9 (beh : Nat → List CbAction) :
    (∀ (mf : Finset EventMode) (an : String) (st : List Handler),
      (ActivityEvents.emit beh mf an st).handlers
        = st.filter (fun h => !(matchesHandler mf an h && h.once)))
    ∧ (∀ (ops : List RegOp) (st : List Handler),
      ∃ (p : Handler → Bool) (suffix : List Handler),
        applyOps beh ops st = st.filter p ++ suffix) :=
  ⟨emit_handlers beh, fun ops st => applyOps_shape beh ops st⟩

/-- C10: the classifier uses two different notions of the event's source.
When the target equals the observer it decides `SelfOnSelf` versus
`OthersOnSelf` from the transport sender's member number (the parsed
`SourceCharacter` is ignored); when the target differs from the observer it
decides `SelfOnOthers` from the parsed `SourceCharacter` (the transport
sender is ignored).  So when the two fields disagree, the category follows
the sender in the first case and `SourceCharacter` in the second. -/
theorem claim_C10 (senderMember sourceCharacter targetCharacter playerMember : Nat) :
    (targetCharacter = playerMember →
      ((classify senderMember sourceCharacter targetCharacter playerMember
          = modesFilters.SelfOnSelf ↔ senderMember = playerMember)
       ∧ ∀ sourceCharacter' : Nat,
          classify senderMember sourceCharacter targetCharacter playerMember
            = classify senderMember sourceCharacter' targetCharacter playerMember))
    ∧ (targetCharacter ≠ playerMember →
      ((classify senderMember sourceCharacter targetCharacter playerMember
          = modesFilters.SelfOnOthers ↔ sourceCharacter = playerMember)
       ∧ ∀ senderMember' : Nat,
          classify senderMember sourceCharacter targetCharacter playerMember
            = classify senderMember' sourceCharacter targetCharacter playerMember)) := by
  constructor
  · intro ht
    subst ht
    constructor
    · by_cases hs : senderMember = targetCharacter
      · simp [classify, hs]
      · have hcl : classify senderMember sourceCharacter targetCharacter targetCharacter
            = modesFilters.OthersOnSelf := by
          simp [classify, hs]
        rw [hcl]
        constructor
        · intro hset
          exact absurd hset (by decide)
        · intro hs2
          exact absurd hs2 hs
    · intro sc'
      simp [classify]
  · intro ht
    constructor
    · by_cases hs : sourceCharacter = playerMember
      · simp [classify, ht, hs]
      · have hcl : classify senderMember sourceCharacter targetCharacter playerMember
            = modesFilters.OthersOnOthers := by
          simp [classify, ht, hs]
        rw [hcl]
        constructor
        · intro hset
          exact absurd hset (by decide)
        · intro hs2
          exact absurd hs2 hs
    · intro s'
      simp [classify, ht]

/-- Witness for C10: with target = observer = 3 the sender field (3)
decides `SelfOnSelf` although `SourceCharacter` is 9; with target 2 and
observer 3 the `SourceCharacter` field (3) decides `SelfOnOthers` although
the sender is 1. -/
theorem claim_C10_witness :
    classify 3 9 3 3 = modesFilters.SelfOnSelf
    ∧ classify 1 3 2 3 = modesFilters.SelfOnOthers :=
  ⟨((claim_C10 3 9 3 3).1 rfl).1.mpr rfl,
   ((claim_C10 1 3 2 3).2 (by decide)).1.mpr rfl⟩

end ActivityRouter
